import Mathlib

/-!
Shallow embedding of the paint application in `src/scirpt.js` (a canvas
drawing app with brush/eraser tools, a bounded undo/redo history of
whole-surface snapshots, resize handling and PNG export).

Modelling conventions:
* JS numbers are modelled as rationals (all arithmetic the claims touch is
  exact: subtraction, multiplication, division, `Math.round`, midpoints).
* The canvas raster is modelled symbolically by the inductive `Raster`:
  the raster content is determined by the sequence of 2D-context painting
  operations applied since the canvas was last (re)allocated.  A freshly
  allocated canvas is fully transparent (`Raster.empty`); `fillRect` with
  opaque white over the whole canvas yields `Raster.blank`; `ctx.stroke()`
  of the current path layers a `Raster.strokePath` node; `drawImage`
  scaled to the logical size layers a `Raster.drawImageScaled` node.
  A zero-area canvas has no pixels, so painting into it is a no-op; the
  operations that the claims exercise on possibly-zero canvases
  (`fillRect` in `fillBackgroundWhite`, `drawImage` in `resizeCanvas`)
  model this explicitly.
* `canvas.toDataURL('image/png')` is a lossless encoding of the raster;
  we identify a data URL with the raster it encodes (`List Raster` for
  the two history stacks).  `toDataURL` can throw (the JS wraps it in
  try/catch and swallows the failure), so `pushUndo` takes an `encodeOk`
  flag selecting the success or the swallowed-failure branch.
* `restoreFromDataURL` clears the canvas, refills the white background and
  draws the decoded snapshot at the logical size; since every captured
  snapshot was taken from a canvas sitting on the opaque white base, this
  reproduces the snapshot raster up to the spec's raster equivalence
  (white-composited PNG round trip), and is modelled as replacing the
  surface by the snapshot.  The `img.onload` callback is asynchronous in
  JS; we model the completed effect of the restore.
* DOM-only effects (CSS classes, aria attributes, button disabling,
  pointer capture, preventDefault, the debounce timer) carry no engine
  state and are not modelled; `updateUndoRedoButtons` is a pure derived
  function of the two list lengths.
-/

namespace Paint

/-- A 2D point in the logical drawing coordinate space (`{x, y}` in JS). -/
structure Point where
  x : ℚ
  y : ℚ
deriving DecidableEq

/-- The data of a pointer event that the engine reads: `clientX`, `clientY`
and `pointerId`. -/
structure PointerEvent where
  clientX : ℚ
  clientY : ℚ
  pointerId : ℕ
deriving DecidableEq

/-- The active tool: `'brush'` or `'eraser'` (src line 18). -/
inductive Tool where
  | brush
  | eraser
deriving DecidableEq

/-- `ctx.globalCompositeOperation`: `'source-over'` for the brush,
`'destination-out'` for the eraser. -/
inductive CompOp where
  | sourceOver
  | destinationOut
deriving DecidableEq

/-- A path-construction command on the 2D context: `moveTo(p)` or
`quadraticCurveTo(c, e)` with control point `c` and endpoint `e`. -/
inductive PathCmd where
  | moveTo (p : Point)
  | quadTo (c : Point) (e : Point)
deriving DecidableEq

/-- Symbolic canvas raster content (see the modelling conventions above).
`empty` is a freshly allocated, fully transparent canvas; `blank` is the
canvas filled with opaque white; `strokePath` is the result of stroking
`path` over `base` with the given composite operation, stroke style and
line width; `drawImageScaled` is the result of drawing the raster `src`
onto `dest` scaled to the logical canvas size. -/
inductive Raster where
  | empty
  | blank
  | strokePath (base : Raster) (path : List PathCmd) (op : CompOp)
      (style : ℕ) (width : ℚ)
  | drawImageScaled (dest : Raster) (src : Raster)
deriving DecidableEq

/-- `ctx.strokeStyle = 'rgba(0,0,0,1)'` used by the eraser: opaque black,
modelled as the colour code 0 (the colour is irrelevant under
`destination-out`). -/
def eraserStrokeStyle : ℕ := 0

/-- The whole mutable state of the script: the gesture flags (src lines
16-23), the two history stacks, the canvas raster and its backing
dimensions (`canvas.width`/`canvas.height`, device pixels), the current
layout rectangle (`canvas.getBoundingClientRect()`), the device pixel
ratio reported by the window, and the 2D-context stroke settings. -/
structure PaintState where
  drawing : Bool
  lastPoint : Option Point
  tool : Tool
  color : ℕ
  size : ℚ
  undoStack : List Raster
  redoStack : List Raster
  surface : Raster
  canvasWidth : ℕ
  canvasHeight : ℕ
  rectLeft : ℚ
  rectTop : ℚ
  rectWidth : ℚ
  rectHeight : ℚ
  devicePixelDensity : ℚ
  compositeOp : CompOp
  strokeStyle : ℕ
  lineWidth : ℚ
  path : List PathCmd
deriving DecidableEq

/-- `MAX_STEPS = 30` (src line 23). -/
def MAX_STEPS : ℕ := 30

/-- JavaScript `Math.round` on an exact rational: round half up. -/
def jsRound (q : ℚ) : ℤ := ⌊q + 1 / 2⌋

/-- `fillBackgroundWhite` (src lines 53-58): fill the whole canvas with
opaque white.  On a zero-area canvas `fillRect` paints no pixels, so the
raster is unchanged. -/
def fillBackgroundWhite (st : PaintState) : PaintState :=
  { st with surface :=
      if st.canvasWidth = 0 ∨ st.canvasHeight = 0 then st.surface
      else Raster.blank }

/-- `drawImage(src, 0, 0, w/dpr, h/dpr)` onto a canvas whose backing size
is `w × h`: scaled to cover the logical size.  On a zero-area canvas it
paints no pixels. -/
def drawImageOn (w h : ℕ) (dest src : Raster) : Raster :=
  if w = 0 ∨ h = 0 then dest else Raster.drawImageScaled dest src

/-- `resizeCanvas` (src lines 26-51): read the current layout rectangle
and device pixel ratio (clamped to at least 1), save the current raster
to a temporary canvas, reallocate the backing store at the rounded new
size (assigning `canvas.width` clears the canvas to transparent), record
the new CSS size, and either redraw the saved content scaled to the new
logical size (when the old backing size was nonzero in both dimensions)
or fill the initial white background.  The `ctx.setTransform` call only
fixes the device-to-logical scale and is not part of the raster content.
The layout rectangle is passed in as the values
`getBoundingClientRect()` reports at call time. -/
def resizeCanvas (st : PaintState) (rectL rectT rectW rectH : ℚ) :
    PaintState :=
  let dpr := max st.devicePixelDensity 1
  let newWidth := (jsRound (rectW * dpr)).toNat
  let newHeight := (jsRound (rectH * dpr)).toNat
  let tempW := st.canvasWidth
  let tempH := st.canvasHeight
  let temp := st.surface
  let st1 := { st with
    canvasWidth := newWidth
    canvasHeight := newHeight
    rectLeft := rectL
    rectTop := rectT
    rectWidth := rectW
    rectHeight := rectH
    surface := Raster.empty }
  if tempW ≠ 0 ∧ tempH ≠ 0 then
    { st1 with surface := drawImageOn newWidth newHeight Raster.empty temp }
  else
    fillBackgroundWhite st1

/-- `setBrush` (src lines 80-88): select the brush tool, composite
`source-over`, stroke style the current colour.  (Button CSS/aria updates
are DOM-only.) -/
def setBrush (st : PaintState) : PaintState :=
  { st with
    tool := Tool.brush
    compositeOp := CompOp.sourceOver
    strokeStyle := st.color }

/-- `setEraser` (src lines 89-97): select the eraser tool, composite
`destination-out`, stroke style opaque black. -/
def setEraser (st : PaintState) : PaintState :=
  { st with
    tool := Tool.eraser
    compositeOp := CompOp.destinationOut
    strokeStyle := eraserStrokeStyle }

/-- `startDrawing(point)` (src lines 100-110): set the drawing flag,
record the start point as the last point, configure the stroke (line
width from the size control, stroke style by tool; `lineJoin`/`lineCap`
are the constant `'round'` and are not modelled), and begin a fresh path
at the point (`beginPath` discards the previous path; `moveTo` starts the
new one). -/
def startDrawing (st : PaintState) (point : Point) : PaintState :=
  { st with
    drawing := true
    lastPoint := some point
    lineWidth := st.size
    strokeStyle := if st.tool = Tool.brush then st.color else eraserStrokeStyle
    path := [PathCmd.moveTo point] }

/-- The midpoint `((lastPoint.x + point.x)/2, (lastPoint.y + point.y)/2)`
computed in `drawTo` (src lines 115-116). -/
def midOf (a b : Point) : Point :=
  ⟨(a.x + b.x) / 2, (a.y + b.y) / 2⟩

/-- `drawTo(point)` (src lines 112-120): no-op unless drawing; otherwise
append one `quadraticCurveTo(lastPoint, mid)` to the current path, stroke
the path onto the surface, and update the last point to the new point.
(When `drawing` is true the script has always set `lastPoint`; the `none`
branch is unreachable from the event handlers and returns the state
unchanged.) -/
def drawTo (st : PaintState) (point : Point) : PaintState :=
  if st.drawing = false then st
  else
    match st.lastPoint with
    | none => st
    | some lp =>
        let newPath := st.path ++ [PathCmd.quadTo lp (midOf lp point)]
        { st with
          path := newPath
          surface := Raster.strokePath st.surface newPath st.compositeOp
            st.strokeStyle st.lineWidth
          lastPoint := some point }

/-- `pushUndo` (src lines 133-142), success path: encode the surface as
a PNG data URL, append it to the undo stack and, if the length now
exceeds `MAX_STEPS`, shift off the entry at index 0 (the oldest). -/
def pushUndo (st : PaintState) : PaintState :=
  let pushed := st.undoStack ++ [st.surface]
  { st with undoStack :=
      if MAX_STEPS < pushed.length then pushed.tail else pushed }

/-- `pushUndo` with its try/catch: `canvas.toDataURL` can throw, and the
catch block swallows the error leaving the state unchanged; `encodeOk`
selects which branch ran. -/
def pushUndoAttempt (st : PaintState) (encodeOk : Bool) : PaintState :=
  if encodeOk then pushUndo st else st

/-- `endDrawing` (src lines 122-130): no-op unless drawing; otherwise
clear the drawing flag, close the path (no raster effect: there is no
stroke after `closePath`), capture a snapshot, and clear the redo stack.
Note the redo stack is cleared even when the snapshot encoding failed. -/
def endDrawing (st : PaintState) (encodeOk : Bool) : PaintState :=
  if st.drawing = false then st
  else
    let st1 := pushUndoAttempt { st with drawing := false } encodeOk
    { st1 with redoStack := [] }

/-- `restoreFromDataURL(dataURL)` (src lines 144-154), completed effect of
the asynchronous `onload` callback: clear the canvas, fill the white
background, and draw the decoded snapshot at the logical size; up to the
spec's raster equivalence this replaces the surface with the raster the
data URL encodes (see the modelling conventions). -/
def restoreFromDataURL (st : PaintState) (dataURL : Raster) : PaintState :=
  { st with surface := dataURL }

/-- `undo` (src lines 156-163): no-op when the undo stack has at most one
entry; otherwise pop the most recent entry onto the redo stack, and
restore from the new top entry when it exists (`if (prev)`: a data URL
string is nonempty, hence truthy, so the guard is exactly definedness). -/
def undo (st : PaintState) : PaintState :=
  if st.undoStack.length ≤ 1 then st
  else
    match st.undoStack.getLast? with
    | none => st
    | some last =>
        let st1 := { st with
          undoStack := st.undoStack.dropLast
          redoStack := st.redoStack ++ [last] }
        match st1.undoStack.getLast? with
        | none => st1
        | some prev => restoreFromDataURL st1 prev

/-- `redo` (src lines 165-171): no-op when the redo stack is empty;
otherwise pop the most recent redo entry, push it back onto the undo
stack, and restore the surface from it. -/
def redo (st : PaintState) : PaintState :=
  match st.redoStack.getLast? with
  | none => st
  | some next =>
      let st1 := { st with
        redoStack := st.redoStack.dropLast
        undoStack := st.undoStack ++ [next] }
      restoreFromDataURL st1 next

/-- `getPoint(ev)` (src lines 214-221): element-local position
(`clientX/Y` minus the rectangle origin) scaled by backing size over
displayed size, divided by the clamped device pixel ratio.  A pure
function of the event and the current state. -/
def getPoint (st : PaintState) (ev : PointerEvent) : Point :=
  let dpr := max st.devicePixelDensity 1
  { x := (ev.clientX - st.rectLeft) * ((st.canvasWidth : ℚ) / st.rectWidth)
      / dpr
    y := (ev.clientY - st.rectTop) * ((st.canvasHeight : ℚ) / st.rectHeight)
      / dpr }

/-- The coordinate mapping as the spec words it (§4.1 and claim C7):
subtract the surface's on-screen origin, scale by backing resolution over
displayed size, divide by the device pixel density.  In this engine the
device pixel density — the ratio of backing pixels to displayed pixels
that `resizeCanvas` establishes — is the window ratio clamped to at
least 1, applied uniformly at every site.  Written separately from
`getPoint` so the source computation can be compared against the spec's
formula. -/
def mapSpecPoint (st : PaintState) (ev : PointerEvent) : Point :=
  { x := (ev.clientX - st.rectLeft) * ((st.canvasWidth : ℚ) / st.rectWidth)
      / max st.devicePixelDensity 1
    y := (ev.clientY - st.rectTop) * ((st.canvasHeight : ℚ) / st.rectHeight)
      / max st.devicePixelDensity 1 }

/-- The `pointerdown` handler (src lines 181-186): unconditionally map
the event and start drawing (pointer capture and `preventDefault` are
DOM-only).  Note there is no guard on `drawing`. -/
def pointerdown (st : PaintState) (ev : PointerEvent) : PaintState :=
  startDrawing st (getPoint st ev)

/-- The `pointermove` handler (src lines 188-193): no-op unless drawing;
otherwise map the event and extend the stroke. -/
def pointermove (st : PaintState) (ev : PointerEvent) : PaintState :=
  if st.drawing = false then st else drawTo st (getPoint st ev)

/-- The `pointerup` handler (src lines 195-200): no-op unless drawing;
otherwise release pointer capture (DOM-only) and end the gesture. -/
def pointerup (st : PaintState) (ev : PointerEvent) (encodeOk : Bool) :
    PaintState :=
  if st.drawing = false then st else endDrawing st encodeOk

/-- The `pointercancel` handler (src lines 202-207): identical body to
the `pointerup` handler. -/
def pointercancel (st : PaintState) (ev : PointerEvent) (encodeOk : Bool) :
    PaintState :=
  if st.drawing = false then st else endDrawing st encodeOk

/-- The `clearBtn` click handler (src lines 238-244): capture a snapshot
of the current (pre-clear) surface, clear the canvas to transparent, fill
the white background, and empty the redo stack. -/
def clearClick (st : PaintState) (encodeOk : Bool) : PaintState :=
  let st1 := pushUndoAttempt st encodeOk
  let st2 := fillBackgroundWhite { st1 with surface := Raster.empty }
  { st2 with redoStack := [] }

/-- `init` (src lines 61-68): run the initial `resizeCanvas`, select the
brush, and push the initial blank-state snapshot.  (The resize-listener,
pointer-event and UI wiring attach handlers and carry no state.)  The
layout rectangle and the encoding outcome of the initial capture are
passed in. -/
def init (st : PaintState) (rectL rectT rectW rectH : ℚ)
    (encodeOk : Bool) : PaintState :=
  pushUndoAttempt (setBrush (resizeCanvas st rectL rectT rectW rectH))
    encodeOk

/-- One completed gesture: a `pointerdown`, a sequence of `pointermove`s,
and a terminating `pointerup`, with `encodeOk` the outcome of the
snapshot encoding at the end of the gesture. -/
structure Gesture where
  down : PointerEvent
  moves : List PointerEvent
  up : PointerEvent
  encodeOk : Bool
deriving DecidableEq

/-- Run one completed gesture through the three pointer handlers. -/
def doGesture (st : PaintState) (g : Gesture) : PaintState :=
  pointerup (g.moves.foldl pointermove (pointerdown st g.down)) g.up
    g.encodeOk

/-- Run a sequence of completed gestures with no other operation
interleaved. -/
def runGestures (st : PaintState) (gs : List Gesture) : PaintState :=
  gs.foldl doGesture st

/-- A concrete baseline state used by the witnesses and counterexamples:
a 200 × 100 canvas at density 1, white surface, brush tool, no history. -/
def baseState : PaintState :=
  { drawing := false
    lastPoint := none
    tool := Tool.brush
    color := 255
    size := 5
    undoStack := []
    redoStack := []
    surface := Raster.blank
    canvasWidth := 200
    canvasHeight := 100
    rectLeft := 0
    rectTop := 0
    rectWidth := 200
    rectHeight := 100
    devicePixelDensity := 1
    compositeOp := CompOp.sourceOver
    strokeStyle := 255
    lineWidth := 5
    path := [] }

/-- A concrete pointer event on the diagonal. -/
def exEvent (q : ℚ) : PointerEvent := ⟨q, q, 1⟩

/-- A concrete non-blank raster: one brush stroke over the white base. -/
def exStroke : Raster :=
  Raster.strokePath Raster.blank
    [PathCmd.moveTo ⟨1, 1⟩, PathCmd.quadTo ⟨1, 1⟩ ⟨2, 2⟩]
    CompOp.sourceOver 255 5

/-- Two concrete completed gestures with successful snapshot encoding. -/
def gEx1 : Gesture := ⟨exEvent 10, [exEvent 20, exEvent 30], exEvent 30, true⟩

/-- A second concrete completed gesture. -/
def gEx2 : Gesture := ⟨exEvent 40, [exEvent 50], exEvent 50, true⟩

/-- A concrete state with a full (30-entry) undo stack. -/
def stFull : PaintState :=
  { baseState with undoStack := List.replicate MAX_STEPS Raster.blank }

/-- The state reached from `baseState` by drawing one stroke and then
clicking clear: the undo stack tops out with the pre-clear stroke while
the surface is blank — the surface no longer matches the most recent
undo entry. -/
def stC2 : PaintState :=
  { baseState with undoStack := [Raster.blank, exStroke] }

/-- A concrete state in which the surface matches the most recent undo
entry (as after a completed gesture). -/
def stC2w : PaintState :=
  { baseState with undoStack := [Raster.blank, exStroke], surface := exStroke }

/-- A concrete mid-gesture state with a stale redo stack. -/
def stC3 : PaintState :=
  { baseState with
    drawing := true
    lastPoint := some ⟨1, 1⟩
    redoStack := [Raster.blank] }

/-- A concrete state with a non-blank surface and one history entry. -/
def stC5 : PaintState :=
  { baseState with surface := exStroke, undoStack := [Raster.blank] }

/-- A concrete state at the history floor: one undo entry, no redo. -/
def stC6 : PaintState :=
  { baseState with undoStack := [Raster.blank] }

/-- A concrete mid-gesture state for the stroke-extension witness. -/
def stC8 : PaintState :=
  { baseState with
    drawing := true
    lastPoint := some ⟨1, 1⟩
    path := [PathCmd.moveTo ⟨1, 1⟩] }

/-- A concrete mid-gesture state for the nested pointer-down witness. -/
def stC9 : PaintState :=
  { baseState with
    drawing := true
    lastPoint := some ⟨2, 2⟩
    path := [PathCmd.moveTo ⟨2, 2⟩]
    undoStack := [Raster.blank] }

/-- A concrete state with two undo entries and one redo entry. -/
def stC10 : PaintState :=
  { baseState with
    undoStack := [Raster.blank, exStroke]
    redoStack := [exStroke] }

/-! ## Supporting lemmas -/

/-- The `pointermove` handler never touches the history stacks or the
drawing flag (it only extends the path, strokes the surface and moves the
last point). -/
theorem pointermove_preserves (st : PaintState) (ev : PointerEvent) :
    (pointermove st ev).undoStack = st.undoStack
  ∧ (pointermove st ev).redoStack = st.redoStack
  ∧ (pointermove st ev).drawing = st.drawing := by
  unfold pointermove drawTo
  split
  · exact ⟨rfl, rfl, rfl⟩
  · split
    · exact ⟨rfl, rfl, rfl⟩
    · exact ⟨rfl, rfl, rfl⟩

/-- A run of `pointermove`s never touches the history stacks or the
drawing flag. -/
theorem foldl_pointermove_preserves (moves : List PointerEvent)
    (st : PaintState) :
    (moves.foldl pointermove st).undoStack = st.undoStack
  ∧ (moves.foldl pointermove st).drawing = st.drawing := by
  induction moves generalizing st with
  | nil => exact ⟨rfl, rfl⟩
  | cons m ms ih =>
      have h1 := pointermove_preserves st m
      have h2 := ih (pointermove st m)
      exact ⟨(List.foldl_cons _ _ ▸ h2.1).trans h1.1,
             (List.foldl_cons _ _ ▸ h2.2).trans h1.2.2⟩

/-- Length of the undo stack after a successful `pushUndo`, below the
cap: one more entry, clipped at `MAX_STEPS`. -/
theorem pushUndo_length (st : PaintState)
    (h : st.undoStack.length ≤ MAX_STEPS) :
    (pushUndo st).undoStack.length
      = min (st.undoStack.length + 1) MAX_STEPS := by
  unfold pushUndo
  dsimp only
  split
  · rename_i hgt
    simp only [List.length_tail, List.length_append, List.length_cons,
      List.length_nil] at *
    omega
  · rename_i hle
    simp only [List.length_append, List.length_cons, List.length_nil] at *
    omega

/-- A successful `pushUndo` always leaves the snapshot of the current
surface as the most recent undo entry (trimming only drops the oldest
entry). -/
theorem pushUndo_getLast (st : PaintState) :
    (pushUndo st).undoStack.getLast? = some st.surface := by
  unfold pushUndo
  dsimp only
  split
  · rename_i hgt
    have hne : (st.undoStack ++ [st.surface]).length ≠ 1 := by
      simp only [List.length_append, List.length_cons, List.length_nil,
        MAX_STEPS] at hgt ⊢
      omega
    rw [List.getLast?_tail, if_neg hne, List.getLast?_concat]
  · simp [List.getLast?_concat]

/-- `resizeCanvas` never touches the history stacks. -/
theorem resizeCanvas_stacks (st : PaintState) (rectL rectT rectW rectH : ℚ) :
    (resizeCanvas st rectL rectT rectW rectH).undoStack = st.undoStack
  ∧ (resizeCanvas st rectL rectT rectW rectH).redoStack = st.redoStack := by
  unfold resizeCanvas fillBackgroundWhite
  dsimp only
  split
  · exact ⟨rfl, rfl⟩
  · exact ⟨rfl, rfl⟩

/-- After `init` with a successful initial capture from a state with an
empty undo stack, the undo stack holds exactly the one initial blank
capture. -/
theorem init_undoStack_length (st : PaintState)
    (rectL rectT rectW rectH : ℚ) (h0 : st.undoStack = []) :
    (init st rectL rectT rectW rectH true).undoStack.length = 1 := by
  have h1 : (setBrush (resizeCanvas st rectL rectT rectW rectH)).undoStack
      = [] := by
    have h2 := (resizeCanvas_stacks st rectL rectT rectW rectH).1
    unfold setBrush
    dsimp only
    rw [h2, h0]
  have h3 : init st rectL rectT rectW rectH true
      = pushUndo (setBrush (resizeCanvas st rectL rectT rectW rectH)) := rfl
  rw [h3, pushUndo_length _ (by rw [h1]; simp [MAX_STEPS]), h1]
  rfl

/-- One completed gesture with successful encoding grows the undo stack
by one entry, clipped at the cap. -/
theorem doGesture_undoStack_length (st : PaintState) (g : Gesture)
    (hok : g.encodeOk = true) (h : st.undoStack.length ≤ MAX_STEPS) :
    (doGesture st g).undoStack.length
      = min (st.undoStack.length + 1) MAX_STEPS := by
  have hpd := foldl_pointermove_preserves g.moves (pointerdown st g.down)
  have hdraw : (g.moves.foldl pointermove (pointerdown st g.down)).drawing
      = true := hpd.2.trans rfl
  have hus : (g.moves.foldl pointermove (pointerdown st g.down)).undoStack
      = st.undoStack := hpd.1.trans rfl
  have h2 := pushUndo_length
    { g.moves.foldl pointermove (pointerdown st g.down) with drawing := false }
    (by simpa [hus] using h)
  unfold doGesture pointerup endDrawing pushUndoAttempt
  rw [hok, hdraw]
  simpa [hus] using h2

/-- Running a sequence of all-successful gestures adds one undo entry per
gesture, clipped at the cap. -/
theorem runGestures_undoStack_length (gs : List Gesture) (st : PaintState)
    (h : st.undoStack.length ≤ MAX_STEPS)
    (hok : ∀ g ∈ gs, g.encodeOk = true) :
    (runGestures st gs).undoStack.length
      = min (st.undoStack.length + gs.length) MAX_STEPS := by
  induction gs generalizing st with
  | nil =>
      unfold runGestures
      simp only [List.foldl_nil, List.length_nil]
      omega
  | cons g gs ih =>
      have h1 := doGesture_undoStack_length st g (hok g (by simp)) h
      have h2 := ih (doGesture st g) (by rw [h1]; omega)
        (fun g' hg' => hok g' (by simp [hg']))
      unfold runGestures at h2 ⊢
      rw [List.foldl_cons, h2, h1]
      simp only [List.length_cons]
      omega

/-! ## Claims -/

/-- C3: after any gesture completes — a pointer-up or pointer-cancel
event ends an active gesture — the redo list is empty, regardless of its
contents before the gesture (and regardless of whether the snapshot
encoding succeeded: the redo stack is truncated outside the try block). -/
theorem c3_redo_cleared_after_gesture (st : PaintState) (ev : PointerEvent)
    (encodeOk : Bool) (h : st.drawing = true) :
    (pointerup st ev encodeOk).redoStack = []
  ∧ (pointercancel st ev encodeOk).redoStack = [] := by
  unfold pointerup pointercancel endDrawing
  rw [h]
  exact ⟨rfl, rfl⟩

/-- Witness for C3 at a concrete mid-gesture state with a stale redo
stack. -/
theorem c3_witness :
    (pointerup stC3 (exEvent 3) true).redoStack = []
  ∧ (pointercancel stC3 (exEvent 3) true).redoStack = [] :=
  c3_redo_cleared_after_gesture stC3 (exEvent 3) true rfl

/-- C6: `undo()` with at most one undo entry and `redo()` with an empty
redo stack each return without touching the surface or either history
list (both are total functions: no error is raised). -/
theorem c6_underflow_noop (st : PaintState) :
    (st.undoStack.length ≤ 1 → undo st = st)
  ∧ (st.redoStack = [] → redo st = st) := by
  constructor
  · intro h
    unfold undo
    rw [if_pos h]
  · intro h
    unfold redo
    rw [h]
    rfl

/-- Witness for C6 at a concrete state at the history floor. -/
theorem c6_witness : undo stC6 = stC6 ∧ redo stC6 = stC6 :=
  ⟨(c6_underflow_noop stC6).1 (by decide), (c6_underflow_noop stC6).2 rfl⟩

/-- C7: the coordinate mapper computes exactly the spec's formula —
element-local position (client position minus the surface's on-screen
origin) scaled by backing-over-displayed size, divided by the device
pixel density (the clamped ratio the engine uses uniformly, which is the
established ratio of backing to displayed pixels).  `getPoint` is a pure
function of the event and the current state: it returns only a `Point`
and by construction has no effect on the surface, gesture or history
state. -/
theorem c7_coordinate_mapper (st : PaintState) (ev : PointerEvent) :
    getPoint st ev = mapSpecPoint st ev := rfl

/-- C8: a pointer-move while a gesture is active appends exactly one
quadratic curve to the path, with the previous last point as control
point and the midpoint of the previous last point and the new mapped
point as endpoint, and then updates the last point to the new mapped
point; a pointer-move while idle changes nothing. -/
theorem c8_move_extends_path (st : PaintState) (ev : PointerEvent)
    (lp : Point) :
    (st.drawing = true → st.lastPoint = some lp →
      (pointermove st ev).path
        = st.path ++ [PathCmd.quadTo lp (midOf lp (getPoint st ev))]
      ∧ (pointermove st ev).lastPoint = some (getPoint st ev))
  ∧ (st.drawing = false → pointermove st ev = st) := by
  constructor
  · intro hd hlp
    unfold pointermove drawTo
    rw [hd, hlp]
    exact ⟨rfl, rfl⟩
  · intro hd
    unfold pointermove
    rw [hd]
    rfl

/-- Witness for C8 at a concrete active state and a concrete idle
state. -/
theorem c8_witness :
    ((pointermove stC8 (exEvent 3)).path
        = stC8.path
          ++ [PathCmd.quadTo ⟨1, 1⟩ (midOf ⟨1, 1⟩ (getPoint stC8 (exEvent 3)))]
      ∧ (pointermove stC8 (exEvent 3)).lastPoint
        = some (getPoint stC8 (exEvent 3)))
  ∧ pointermove baseState (exEvent 3) = baseState :=
  ⟨(c8_move_extends_path stC8 (exEvent 3) ⟨1, 1⟩).1 rfl rfl,
   (c8_move_extends_path baseState (exEvent 3) ⟨1, 1⟩).2 rfl⟩

/-- C9: a pointer-down that arrives while a gesture is already active
runs start-drawing again: the drawing flag stays true, neither history
stack is touched (the in-progress stroke is not captured), the last
point is overwritten with the newly mapped point and a fresh path is
begun there; the eventual pointer-up takes exactly the one snapshot a
single `pushUndo` from the pre-event state would take. -/
theorem c9_midgesture_pointerdown (st : PaintState) (ev2 ev3 : PointerEvent)
    (h : st.drawing = true) :
    (pointerdown st ev2).drawing = true
  ∧ (pointerdown st ev2).undoStack = st.undoStack
  ∧ (pointerdown st ev2).redoStack = st.redoStack
  ∧ (pointerdown st ev2).lastPoint = some (getPoint st ev2)
  ∧ (pointerdown st ev2).path = [PathCmd.moveTo (getPoint st ev2)]
  ∧ (pointerup (pointerdown st ev2) ev3 true).undoStack
      = (pushUndo st).undoStack :=
  ⟨rfl, rfl, rfl, rfl, rfl, rfl⟩

/-- Witness for C9 at a concrete mid-gesture state. -/
theorem c9_witness :
    (pointerdown stC9 (exEvent 3)).drawing = true
  ∧ (pointerdown stC9 (exEvent 3)).undoStack = stC9.undoStack
  ∧ (pointerdown stC9 (exEvent 3)).redoStack = stC9.redoStack
  ∧ (pointerdown stC9 (exEvent 3)).lastPoint
      = some (getPoint stC9 (exEvent 3))
  ∧ (pointerdown stC9 (exEvent 3)).path
      = [PathCmd.moveTo (getPoint stC9 (exEvent 3))]
  ∧ (pointerup (pointerdown stC9 (exEvent 3)) (exEvent 4) true).undoStack
      = (pushUndo stC9).undoStack :=
  c9_midgesture_pointerdown stC9 (exEvent 3) (exEvent 4) rfl

/-- C10: when their guards pass (more than one undo entry for `undo`, a
non-empty redo stack for `redo`), each operation moves exactly one entry
between the two history stacks, so the combined number of stored entries
is conserved. -/
theorem c10_history_size_conserved (st : PaintState) :
    (2 ≤ st.undoStack.length →
      (undo st).undoStack.length + (undo st).redoStack.length
        = st.undoStack.length + st.redoStack.length)
  ∧ (st.redoStack ≠ [] →
      (redo st).undoStack.length + (redo st).redoStack.length
        = st.undoStack.length + st.redoStack.length) := by
  constructor
  · intro h
    unfold undo
    rw [if_neg (by omega)]
    dsimp only
    split
    · rfl
    · split
      · dsimp only
        simp only [List.length_dropLast, List.length_append,
          List.length_cons, List.length_nil]
        omega
      · unfold restoreFromDataURL
        dsimp only
        simp only [List.length_dropLast, List.length_append,
          List.length_cons, List.length_nil]
        omega
  · intro h
    have hlen : 1 ≤ st.redoStack.length := by
      cases hcase : st.redoStack with
      | nil => exact absurd hcase h
      | cons a l => simp
    unfold redo
    split
    · rfl
    · unfold restoreFromDataURL
      dsimp only
      simp only [List.length_dropLast, List.length_append,
        List.length_cons, List.length_nil]
      omega

/-- C1: after initialization (which pushes the initial blank-state
capture), running any sequence of N completed gestures — with no
undo/redo/clear interleaved and every snapshot encoding succeeding —
leaves the undo list with exactly min(N+1, 30) entries; and whenever a
capture would exceed the cap, the evicted entry is the one at index 0
(the oldest): the capped stack is the old stack's tail plus the new
snapshot. -/
theorem c1_undo_depth (st0 : PaintState) (rectL rectT rectW rectH : ℚ)
    (gs : List Gesture) (h0 : st0.undoStack = [])
    (hok : ∀ g ∈ gs, g.encodeOk = true) :
    (runGestures (init st0 rectL rectT rectW rectH true) gs).undoStack.length
        = min (gs.length + 1) MAX_STEPS
  ∧ ∀ st : PaintState, MAX_STEPS ≤ st.undoStack.length →
      (pushUndo st).undoStack = st.undoStack.tail ++ [st.surface] := by
  constructor
  · have h1 := init_undoStack_length st0 rectL rectT rectW rectH h0
    have h2 := runGestures_undoStack_length gs _
      (by rw [h1]; simp [MAX_STEPS]) hok
    rw [h2, h1]
    omega
  · intro st hst
    unfold pushUndo
    dsimp only
    rw [if_pos (by simp only [List.length_append, List.length_cons,
      List.length_nil]; omega)]
    cases hcase : st.undoStack with
    | nil => rw [hcase] at hst; simp [MAX_STEPS] at hst
    | cons a l => simp

/-- Witness for C1: two concrete gestures after initialization give
three undo entries; pushing onto a concrete full stack drops its head. -/
theorem c1_witness :
    (runGestures (init baseState 0 0 200 100 true) [gEx1, gEx2]).undoStack.length
        = min ([gEx1, gEx2].length + 1) MAX_STEPS
  ∧ (pushUndo stFull).undoStack
      = stFull.undoStack.tail ++ [stFull.surface] :=
  ⟨(c1_undo_depth baseState 0 0 200 100 [gEx1, gEx2] rfl (by decide)).1,
   (c1_undo_depth baseState 0 0 200 100 [gEx1, gEx2] rfl (by decide)).2
     stFull (by decide)⟩

/-- C2 as stated fails on the reachable post-clear state `stC2` (undo
list [blank, stroke], blank surface: the clear handler captured the
pre-clear stroke, then blanked the surface): there, undo() followed by
redo() leaves the surface holding the stroke snapshot, not the blank
raster the surface held before the undo. -/
theorem c2_counterexample : (redo (undo stC2)).surface ≠ stC2.surface := by
  decide

/-- C2 (amended): for any state whose undo list has at least two entries
*and whose surface matches the most recent undo entry* (as holds right
after a completed-gesture capture, an undo or a redo — but not right
after a clear), undo() followed by redo() restores the whole state: the
surface and both history lists return to their pre-undo contents. -/
theorem c2_undo_redo_roundtrip (st : PaintState)
    (hlen : 2 ≤ st.undoStack.length)
    (htop : st.undoStack.getLast? = some st.surface) :
    redo (undo st) = st := by
  unfold undo
  rw [if_neg (by omega)]
  dsimp only
  split
  · rename_i heq
    rw [htop] at heq
    cases heq
  · rename_i last heq
    rw [htop] at heq
    injection heq with heq2
    subst heq2
    split
    · rename_i heq3
      rw [List.getLast?_eq_none_iff] at heq3
      have h4 : st.undoStack.dropLast.length = 0 := by rw [heq3]; rfl
      rw [List.length_dropLast] at h4
      omega
    · rename_i prev heq3
      unfold restoreFromDataURL redo
      dsimp only
      split
      · rename_i heq4
        rw [List.getLast?_concat] at heq4
        cases heq4
      · rename_i next heq4
        rw [List.getLast?_concat] at heq4
        injection heq4 with heq5
        subst heq5
        unfold restoreFromDataURL
        dsimp only
        rw [List.dropLast_concat,
          List.dropLast_append_getLast? st.surface (Option.mem_def.mpr htop)]

/-- Witness for C2 (amended) at a concrete state whose surface matches
the top undo entry. -/
theorem c2_witness : redo (undo stC2w) = stC2w :=
  c2_undo_redo_roundtrip stC2w (by decide) (by decide)

/-- C4 as stated fails: resizing `baseState` (backing 200 × 100, white
surface) with a zero-width layout rectangle reallocates the backing
raster to width 0 and discards the raster content, rather than leaving
both untouched. -/
theorem c4_counterexample :
    (resizeCanvas baseState 0 0 0 50).canvasWidth ≠ baseState.canvasWidth
  ∧ (resizeCanvas baseState 0 0 0 50).surface ≠ baseState.surface := by
  have hW : (jsRound ((0 : ℚ) * max baseState.devicePixelDensity 1)).toNat
      = 0 := by
    norm_num [jsRound, baseState]
  have hH : (jsRound ((50 : ℚ) * max baseState.devicePixelDensity 1)).toNat
      = 50 := by
    have h5 : jsRound ((50 : ℚ) * max baseState.devicePixelDensity 1)
        = 50 := by
      norm_num [jsRound, baseState]
    rw [h5]
    rfl
  have hres : resizeCanvas baseState 0 0 0 50
      = { baseState with
          canvasWidth := 0
          canvasHeight := 50
          rectLeft := 0
          rectTop := 0
          rectWidth := 0
          rectHeight := 50
          surface := Raster.empty } := by
    unfold resizeCanvas drawImageOn
    dsimp only
    rw [hW, hH]
    rw [if_pos ⟨by decide, by decide⟩]
    rw [if_pos (Or.inl rfl)]
  rw [hres]
  exact ⟨by decide, by decide⟩

/-- C4 (amended): when the display size reports zero in either
dimension, `resizeCanvas` records the new size but — far from being a
content-preserving no-op — reallocates the backing store to zero in that
dimension (`Math.round(0 · dpr) = 0`), leaving a zero-area and hence
contentless canvas: the surface becomes `Raster.empty`.  (The old-size
guard `temp.width && temp.height` tests the old backing size, not the
new one.  `resizeCanvas` itself performs no division, so no division
error arises in it.) -/
theorem c4_zero_size_resize (st : PaintState) (rectL rectT rectW rectH : ℚ)
    (h : rectW = 0 ∨ rectH = 0) :
    (resizeCanvas st rectL rectT rectW rectH).rectWidth = rectW
  ∧ (resizeCanvas st rectL rectT rectW rectH).rectHeight = rectH
  ∧ (resizeCanvas st rectL rectT rectW rectH).surface = Raster.empty
  ∧ (rectW = 0 → (resizeCanvas st rectL rectT rectW rectH).canvasWidth = 0)
  ∧ (rectH = 0 →
      (resizeCanvas st rectL rectT rectW rectH).canvasHeight = 0) := by
  have h0 : (jsRound 0).toNat = 0 := by norm_num [jsRound]
  refine ⟨?_, ?_, ?_, ?_, ?_⟩
  · unfold resizeCanvas fillBackgroundWhite
    dsimp only
    split <;> rfl
  · unfold resizeCanvas fillBackgroundWhite
    dsimp only
    split <;> rfl
  · unfold resizeCanvas drawImageOn fillBackgroundWhite
    dsimp only
    rcases h with h | h <;> subst h <;> rw [zero_mul, h0] <;> split <;> simp
  · intro hw
    subst hw
    unfold resizeCanvas fillBackgroundWhite
    dsimp only
    rw [zero_mul, h0]
    split <;> rfl
  · intro hh
    subst hh
    unfold resizeCanvas fillBackgroundWhite
    dsimp only
    rw [zero_mul, h0]
    split <;> rfl

/-- Witness for C4 (amended) at a concrete state and a zero-width
rectangle. -/
theorem c4_witness :
    (resizeCanvas baseState 0 0 0 50).rectWidth = 0
  ∧ (resizeCanvas baseState 0 0 0 50).rectHeight = 50
  ∧ (resizeCanvas baseState 0 0 0 50).surface = Raster.empty
  ∧ (resizeCanvas baseState 0 0 0 50).canvasWidth = 0 := by
  obtain ⟨h1, h2, h3, h4, h5⟩ :=
    c4_zero_size_resize baseState 0 0 0 50 (Or.inl rfl)
  exact ⟨h1, h2, h3, h4 rfl⟩

/-- C5 as stated fails: clicking clear on the concrete state `stC5`
(whose surface holds a stroke) leaves the surface blank but the most
recent undo entry holding the pre-clear stroke, not the cleared blank
surface. -/
theorem c5_counterexample :
    (clearClick stC5 true).surface = Raster.blank
  ∧ (clearClick stC5 true).undoStack.getLast? ≠ some Raster.blank := by
  decide

/-- C5 (amended): the clear operation is *preceded*, not followed, by
its history capture: when the snapshot encoding succeeds, immediately
after a clear the most recent undo entry holds the surface state from
just before the clear, the redo list is empty, and the surface itself is
blank white (on a nonzero-area canvas). -/
theorem c5_clear_precapture (st : PaintState) :
    (clearClick st true).undoStack.getLast? = some st.surface
  ∧ (clearClick st true).redoStack = []
  ∧ (st.canvasWidth ≠ 0 → st.canvasHeight ≠ 0 →
      (clearClick st true).surface = Raster.blank) := by
  refine ⟨?_, rfl, ?_⟩
  · have h := pushUndo_getLast st
    have h2 : (clearClick st true).undoStack = (pushUndo st).undoStack := rfl
    rw [h2]
    exact h
  · intro hw hh
    unfold clearClick pushUndoAttempt pushUndo fillBackgroundWhite
    dsimp only
    simp [hw, hh]

/-- Witness for C5 (amended) at a concrete state with a stroke on the
surface. -/
theorem c5_witness :
    (clearClick stC5 true).undoStack.getLast? = some stC5.surface
  ∧ (clearClick stC5 true).redoStack = []
  ∧ (clearClick stC5 true).surface = Raster.blank :=
  ⟨(c5_clear_precapture stC5).1, (c5_clear_precapture stC5).2.1,
   (c5_clear_precapture stC5).2.2 (by decide) (by decide)⟩

/-- Witness for C10 at a concrete state with two undo entries and one
redo entry. -/
theorem c10_witness :
    ((undo stC10).undoStack.length + (undo stC10).redoStack.length
        = stC10.undoStack.length + stC10.redoStack.length)
  ∧ ((redo stC10).undoStack.length + (redo stC10).redoStack.length
        = stC10.undoStack.length + stC10.redoStack.length) :=
  ⟨(c10_history_size_conserved stC10).1 (by decide),
   (c10_history_size_conserved stC10).2 (by decide)⟩

end Paint
